import Mathlib

/-!
Verification of the study-assistant repository.

Two code paths exist: the UI pipeline in `study_assistant.py` (speech-to-text,
PDF extraction, the "Generate Study Help" button handler), and a graph-style
notes → flashcards → quiz flow whose implementation (`app.py` / `assistant.py`)
is absent from the repository — only its tests remain.  The UI-pipeline
functions are embedded directly from `study_assistant.py`; the flashcard/quiz
flow is modelled from the specification, as marked on each definition.
-/

namespace StudyAssistant

/-! ## Data model (flashcard / quiz flow) -/

/-- Modelled from the spec: a Flashcard is a `question`/`answer` text pair
(the implementing module `app.py` is missing from the repository; only its
tests exist). -/
structure Flashcard where
  question : String
  answer : String
  deriving DecidableEq, Repr

/-- Modelled from the spec: a QuizItem holds a `question` and `answer` copied
verbatim from a Flashcard, plus `options`, exactly 4 distinct display strings
one of which equals `answer`. -/
structure QuizItem where
  question : String
  answer : String
  options : List String
  deriving DecidableEq, Repr

/-- Modelled from the spec: StudyState carries `notes` (immutable after
creation), `flashcards`, and `quiz`. -/
structure StudyState where
  notes : String
  flashcards : List Flashcard
  quiz : List QuizItem
  deriving DecidableEq, Repr

/-- Modelled from the spec: the core error taxonomy has a single variant,
`InvalidInput`, raised when an empty question or answer reaches the quiz
builder. -/
inductive QuizError where
  | invalidInput
  deriving DecidableEq, Repr

/-! ## Quiz builder (modelled from the spec, §4.1) -/

/-- Modelled from the spec: a synthesized placeholder distractor — a labeled
variant of the answer.  The construction policy is an implementation choice;
the spec requires only that the 4-distinct-options invariant hold
deterministically even when fewer than 3 other flashcards exist. -/
def makeDistractor (answer : String) (k : Nat) : String :=
  answer ++ " (variant " ++ toString (k + 1) ++ ")"

/-- Modelled from the spec: the option set for one quiz item — the correct
answer plus exactly 3 synthesized placeholder distractors. -/
def makeOptions (answer : String) : List String :=
  [answer, makeDistractor answer 0, makeDistractor answer 1, makeDistractor answer 2]

/-- Modelled from the spec: the quiz item produced for one flashcard —
`question` and `answer` copied verbatim, options built by `makeOptions`. -/
def toQuizItem (f : Flashcard) : QuizItem :=
  { question := f.question, answer := f.answer, options := makeOptions f.answer }

/-- Modelled from the spec: `build_quiz` (the quiz builder whose implementing
module is missing from the repository).  An empty input yields an empty
sequence; a flashcard with an empty question or answer makes the whole call
fail with `InvalidInput` (all-or-nothing); otherwise each flashcard yields one
quiz item. -/
def build_quiz (flashcards : List Flashcard) : Except QuizError (List QuizItem) :=
  if flashcards.any (fun f => f.question = "" || f.answer = "") then
    .error .invalidInput
  else
    .ok (flashcards.map toQuizItem)

/-! ## Flow stages (modelled from the spec, §2 and §3) -/

/-- Modelled from the spec: the flashcard deriver is an opaque collaborator;
`derive` stands for it.  The stage reads `notes` and extends the state record
by populating `flashcards`, leaving `notes` untouched. -/
def run_flashcard_stage (derive : String → List Flashcard) (s : StudyState) : StudyState :=
  { s with flashcards := derive s.notes }

/-- Modelled from the spec: the quiz-builder stage populates `quiz` from the
already-populated `flashcards` and never re-reads `notes`. -/
def run_quiz_stage (s : StudyState) : Except QuizError StudyState :=
  match build_quiz s.flashcards with
  | .error e => .error e
  | .ok q => .ok { s with quiz := q }

/-- Modelled from the spec: the full flow — StudyState is created once with
empty `flashcards`/`quiz`, then the flashcard deriver runs, then the quiz
builder. -/
def run_flow (derive : String → List Flashcard) (notes : String) :
    Except QuizError StudyState :=
  run_quiz_stage (run_flashcard_stage derive { notes := notes, flashcards := [], quiz := [] })

/-! ## String helper lemmas -/

theorem string_ext {a b : String} (h : a.data = b.data) : a = b := by
  cases a; cases b; exact congrArg String.mk h

theorem string_append_left_cancel {a b c : String} (h : a ++ b = a ++ c) : b = c := by
  have hd : a.data ++ b.data = a.data ++ c.data := by
    rw [← String.data_append, ← String.data_append, h]
  exact string_ext (List.append_cancel_left hd)

theorem string_append_right_cancel {a b c : String} (h : a ++ c = b ++ c) : a = b := by
  have hd : a.data ++ c.data = b.data ++ c.data := by
    rw [← String.data_append, ← String.data_append, h]
  exact string_ext (List.append_cancel_right hd)

theorem string_ne_append_of_length_pos {a v : String} (hv : 0 < v.length) :
    a ≠ a ++ v := by
  intro h
  have hl : a.length = a.length + v.length := by
    conv_lhs => rw [h]
    exact String.length_append a v
  omega

theorem makeDistractor_ne_answer (a : String) (k : Nat) : a ≠ makeDistractor a k := by
  unfold makeDistractor
  simp only [String.append_assoc]
  apply string_ne_append_of_length_pos
  rw [String.length_append]
  have : 0 < " (variant ".length := by decide
  omega

theorem makeDistractor_inj (a : String) {j k : Nat} (h : makeDistractor a j = makeDistractor a k) :
    toString (j + 1) = toString (k + 1) := by
  unfold makeDistractor at h
  simp only [String.append_assoc] at h
  have h1 := string_append_left_cancel h
  exact string_append_right_cancel (string_append_left_cancel h1)

theorem natToString_one_ne_two : toString (0 + 1) ≠ toString (1 + 1) := by decide

theorem natToString_one_ne_three : toString (0 + 1) ≠ toString (2 + 1) := by decide

theorem natToString_two_ne_three : toString (1 + 1) ≠ toString (2 + 1) := by decide

theorem makeOptions_nodup (a : String) : (makeOptions a).Nodup := by
  unfold makeOptions
  refine List.nodup_cons.mpr ⟨?_, List.nodup_cons.mpr ⟨?_, List.nodup_cons.mpr ⟨?_, List.nodup_singleton _⟩⟩⟩
  · intro hmem
    rcases List.mem_cons.mp hmem with h | hmem
    · exact makeDistractor_ne_answer a 0 h
    rcases List.mem_cons.mp hmem with h | hmem
    · exact makeDistractor_ne_answer a 1 h
    rcases List.mem_singleton.mp hmem with h
    exact makeDistractor_ne_answer a 2 h
  · intro hmem
    rcases List.mem_cons.mp hmem with h | hmem
    · exact natToString_one_ne_two (makeDistractor_inj a h)
    rcases List.mem_singleton.mp hmem with h
    exact natToString_one_ne_three (makeDistractor_inj a h)
  · intro hmem
    rcases List.mem_singleton.mp hmem with h
    exact natToString_two_ne_three (makeDistractor_inj a h)

theorem build_quiz_ok_of_valid {F : List Flashcard}
    (hvalid : ∀ f ∈ F, f.question ≠ "" ∧ f.answer ≠ "") :
    build_quiz F = .ok (F.map toQuizItem) := by
  unfold build_quiz
  rw [if_neg]
  intro hany
  rcases List.any_eq_true.mp hany with ⟨f, hf, hcond⟩
  rcases hvalid f hf with ⟨hq, ha⟩
  rcases Bool.or_eq_true _ _ |>.mp hcond with h | h
  · exact hq (of_decide_eq_true h)
  · exact ha (of_decide_eq_true h)

/-! ## Claims about the quiz builder -/

/-- C1: for every non-empty flashcard sequence whose flashcards all have
non-empty question and answer, `build_quiz` returns a quiz of the same length
whose i-th item copies the i-th flashcard's question and answer verbatim. -/
theorem build_quiz_preserves_question_answer (F : List Flashcard) (_hne : F ≠ [])
    (hvalid : ∀ f ∈ F, f.question ≠ "" ∧ f.answer ≠ "") :
    ∃ quiz, build_quiz F = .ok quiz ∧ quiz.length = F.length ∧
      ∀ i : Nat, quiz[i]?.map QuizItem.question = F[i]?.map Flashcard.question ∧
        quiz[i]?.map QuizItem.answer = F[i]?.map Flashcard.answer := by
  refine ⟨F.map toQuizItem, build_quiz_ok_of_valid hvalid, List.length_map _ _, ?_⟩
  intro i
  constructor <;> · cases h : F[i]? <;> simp [List.getElem?_map, h, toQuizItem]

/-- Witness for C1 at a concrete two-flashcard input. -/
theorem build_quiz_preserves_question_answer_witness :
    ∃ quiz, build_quiz [⟨"Q1", "A1"⟩, ⟨"Q2", "A2"⟩] = .ok quiz ∧
      quiz.length = ([⟨"Q1", "A1"⟩, ⟨"Q2", "A2"⟩] : List Flashcard).length ∧
      ∀ i : Nat, quiz[i]?.map QuizItem.question =
          ([⟨"Q1", "A1"⟩, ⟨"Q2", "A2"⟩] : List Flashcard)[i]?.map Flashcard.question ∧
        quiz[i]?.map QuizItem.answer =
          ([⟨"Q1", "A1"⟩, ⟨"Q2", "A2"⟩] : List Flashcard)[i]?.map Flashcard.answer :=
  build_quiz_preserves_question_answer _ (by decide) (by decide)

/-- C2: for every flashcard sequence with non-empty questions and answers
(however short), `build_quiz` succeeds — synthesizing placeholder distractors
rather than failing — and every quiz item has exactly 4 pairwise-distinct
options, one of which equals its answer. -/
theorem build_quiz_options_invariant (F : List Flashcard)
    (hvalid : ∀ f ∈ F, f.question ≠ "" ∧ f.answer ≠ "") :
    ∃ quiz, build_quiz F = .ok quiz ∧ ∀ item ∈ quiz,
      item.options.length = 4 ∧ item.options.Nodup ∧ item.answer ∈ item.options := by
  refine ⟨F.map toQuizItem, build_quiz_ok_of_valid hvalid, ?_⟩
  intro item hitem
  rcases List.mem_map.mp hitem with ⟨f, _, rfl⟩
  exact ⟨rfl, makeOptions_nodup f.answer, List.mem_cons_self _ _⟩

/-- Witness for C2 at a single-flashcard input (fewer than 3 other
flashcards exist, yet the call succeeds with 4 distinct options). -/
theorem build_quiz_options_invariant_witness :
    ∃ quiz, build_quiz [⟨"What is Python?", "A programming language"⟩] = .ok quiz ∧
      ∀ item ∈ quiz,
        item.options.length = 4 ∧ item.options.Nodup ∧ item.answer ∈ item.options :=
  build_quiz_options_invariant _ (by decide)

/-- C3: the quiz builder maps the empty flashcard sequence to the empty quiz
sequence, not to an error. -/
theorem build_quiz_empty : build_quiz ([] : List Flashcard) = .ok [] := rfl

/-- C4: `build_quiz` fails with `InvalidInput` exactly when some flashcard has
an empty question or an empty answer. -/
theorem build_quiz_invalidInput_iff (F : List Flashcard) :
    build_quiz F = .error .invalidInput ↔ ∃ f ∈ F, f.question = "" ∨ f.answer = "" := by
  have hiff : F.any (fun f => f.question = "" || f.answer = "") = true ↔
      ∃ f ∈ F, f.question = "" ∨ f.answer = "" := by
    rw [List.any_eq_true]
    constructor
    · rintro ⟨f, hf, hc⟩
      refine ⟨f, hf, ?_⟩
      rcases (Bool.or_eq_true _ _).mp hc with h | h
      · exact Or.inl (of_decide_eq_true h)
      · exact Or.inr (of_decide_eq_true h)
    · rintro ⟨f, hf, hc⟩
      refine ⟨f, hf, ?_⟩
      rcases hc with h | h
      · exact (Bool.or_eq_true _ _).mpr (Or.inl (decide_eq_true h))
      · exact (Bool.or_eq_true _ _).mpr (Or.inr (decide_eq_true h))
  unfold build_quiz
  by_cases hb : F.any (fun f => f.question = "" || f.answer = "") = true
  · rw [if_pos hb]
    exact ⟨fun _ => hiff.mp hb, fun _ => rfl⟩
  · rw [if_neg hb]
    constructor
    · intro h
      simp at h
    · intro hex
      exact absurd (hiff.mpr hex) hb

/-- Witness for C4 at a concrete input with an empty question. -/
theorem build_quiz_invalidInput_witness :
    build_quiz [⟨"", "An answer"⟩] = .error .invalidInput :=
  (build_quiz_invalidInput_iff _).mpr ⟨⟨"", "An answer"⟩, by simp, Or.inl rfl⟩

/-- C5: the quiz builder is a pure function of its input — two invocations on
identical flashcard sequences produce quizzes whose question and answer fields
agree at every index. -/
theorem build_quiz_deterministic (F₁ F₂ : List Flashcard) (heq : F₁ = F₂)
    (q₁ q₂ : List QuizItem) (h₁ : build_quiz F₁ = .ok q₁) (h₂ : build_quiz F₂ = .ok q₂) :
    q₁.length = q₂.length ∧ ∀ i : Nat,
      q₁[i]?.map QuizItem.question = q₂[i]?.map QuizItem.question ∧
      q₁[i]?.map QuizItem.answer = q₂[i]?.map QuizItem.answer := by
  subst heq
  rw [h₁] at h₂
  injection h₂ with h
  subst h
  exact ⟨rfl, fun _ => ⟨rfl, rfl⟩⟩

/-- Witness for C5 at a concrete input. -/
theorem build_quiz_deterministic_witness :
    ([toQuizItem ⟨"Q", "A"⟩] : List QuizItem).length = [toQuizItem ⟨"Q", "A"⟩].length ∧
    ∀ i : Nat,
      ([toQuizItem ⟨"Q", "A"⟩] : List QuizItem)[i]?.map QuizItem.question =
        ([toQuizItem ⟨"Q", "A"⟩] : List QuizItem)[i]?.map QuizItem.question ∧
      ([toQuizItem ⟨"Q", "A"⟩] : List QuizItem)[i]?.map QuizItem.answer =
        ([toQuizItem ⟨"Q", "A"⟩] : List QuizItem)[i]?.map QuizItem.answer :=
  build_quiz_deterministic [⟨"Q", "A"⟩] [⟨"Q", "A"⟩] rfl _ _ rfl rfl

/-- C6: through the notes → flashcard deriver → quiz builder flow, the state
record's `notes` field is never mutated after creation (the final state's
notes equal the initial notes, and the flashcard stage preserves notes), and
the quiz-builder stage never reads `notes`: its quiz output depends only on
the `flashcards` field. -/
theorem notes_immutable_through_flow :
    (∀ (derive : String → List Flashcard) (notes : String) (s : StudyState),
       run_flow derive notes = .ok s → s.notes = notes) ∧
    (∀ (derive : String → List Flashcard) (s : StudyState),
       (run_flashcard_stage derive s).notes = s.notes) ∧
    (∀ s₁ s₂ : StudyState, s₁.flashcards = s₂.flashcards →
       (run_quiz_stage s₁).map StudyState.quiz = (run_quiz_stage s₂).map StudyState.quiz) := by
  refine ⟨?_, fun _ _ => rfl, ?_⟩
  · intro derive notes s h
    unfold run_flow run_quiz_stage run_flashcard_stage at h
    cases hb : build_quiz (derive notes) with
    | error e => rw [hb] at h; simp at h
    | ok q =>
      rw [hb] at h
      injection h with h
      rw [← h]
  · intro s₁ s₂ h
    unfold run_quiz_stage
    rw [h]
    cases build_quiz s₂.flashcards <;> rfl

/-- Witness for C6: a concrete run of the flow preserves the notes, and the
quiz stage gives the same quiz for two states differing only in notes. -/
theorem notes_immutable_through_flow_witness :
    ({ notes := "my notes", flashcards := [⟨"Q", "A"⟩],
       quiz := [toQuizItem ⟨"Q", "A"⟩] } : StudyState).notes = "my notes" ∧
    (run_quiz_stage { notes := "one", flashcards := [⟨"Q", "A"⟩], quiz := [] }).map
        StudyState.quiz =
      (run_quiz_stage { notes := "two", flashcards := [⟨"Q", "A"⟩], quiz := [] }).map
        StudyState.quiz :=
  ⟨notes_immutable_through_flow.1 (fun _ => [⟨"Q", "A"⟩]) "my notes" _ rfl,
   notes_immutable_through_flow.2.2 _ _ rfl⟩

/-! ## UI pipeline, embedded from `study_assistant.py` -/

/-- The outcome of one call to `recognizer.recognize_google`: recognized text,
an `UnknownValueError`, or a `RequestError`. -/
inductive RecognitionOutcome where
  | recognized (text : String)
  | unknownValue
  | requestError
  deriving DecidableEq, Repr

/-- `speech_to_text` from `study_assistant.py`: returns the recognized text,
and returns `""` when recognition raises `UnknownValueError` or
`RequestError` (both exceptions are caught). -/
def speech_to_text (outcome : RecognitionOutcome) : String :=
  match outcome with
  | .recognized t => t
  | .unknownValue => ""
  | .requestError => ""

/-- `extract_text_from_pdf` from `study_assistant.py`: starts from `""` and,
for each page in order, appends the page's extracted text followed by a
newline. A page is represented by its extracted text. -/
def extract_text_from_pdf (pages : List String) : String :=
  pages.foldl (fun text page => text ++ page ++ "\n") ""

/-- The spec's description of the extractor's result, written independently:
the concatenation of each page's text with a newline appended after each, in
page order. -/
def concat_pages_spec : List String → String
  | [] => ""
  | p :: ps => p ++ "\n" ++ concat_pages_spec ps

/-- Python's `str.strip()` as applied to `notes` in the button handler:
remove leading and trailing whitespace characters. -/
def py_strip (s : String) : String :=
  String.mk (((s.data.dropWhile Char.isWhitespace).reverse.dropWhile Char.isWhitespace).reverse)

/-- A transport or quota error raised by the hosted language-model service. -/
inductive LLMError where
  | transport
  | quota
  deriving DecidableEq, Repr

/-- What the "Generate Study Help" handler produces: either only a warning
(blank notes) or the four generated texts. -/
inductive StudyHelpResult where
  | warning
  | output (summary quiz flashcards schedule : String)
  deriving DecidableEq, Repr

/-- The summary prompt template of `study_assistant.py`, formatted with the
notes. -/
def summary_prompt (notes : String) : String :=
  "Summarize the following notes in 5-6 easy bullet points:\n\n" ++ notes

/-- The quiz prompt template of `study_assistant.py`, formatted with the
notes. -/
def quiz_prompt (notes : String) : String :=
  "Create 5 quiz questions (with answers) from the following notes:\n\n" ++ notes

/-- The flashcard prompt template of `study_assistant.py`, formatted with the
notes. -/
def flash_prompt (notes : String) : String :=
  "Convert these notes into 5 flashcards (Q&A format):\n\n" ++ notes

/-- The schedule prompt template of `study_assistant.py`, formatted with the
notes and the study hours. -/
def schedule_prompt (notes : String) (hours : Nat) : String :=
  "Create a " ++ toString hours ++
    "-hour study plan using these notes. Divide into sessions with breaks:\n\n" ++ notes

/-- The "Generate Study Help" button handler of `study_assistant.py`.  The
language model is the function `llm`; each `llm.invoke` may raise a transport
or quota error, which the handler does not catch.  The second component
counts how many `llm.invoke` calls were performed.  Blank notes (after
`strip()`) short-circuit to a warning with no model calls; otherwise the four
prompts are sent in order. -/
def generate_study_help (llm : String → Except LLMError String)
    (notes : String) (hours : Nat) : Except LLMError StudyHelpResult × Nat :=
  if py_strip notes = "" then (.ok .warning, 0)
  else
    match llm (summary_prompt notes) with
    | .error e => (.error e, 1)
    | .ok summary =>
      match llm (quiz_prompt notes) with
      | .error e => (.error e, 2)
      | .ok quiz =>
        match llm (flash_prompt notes) with
        | .error e => (.error e, 3)
        | .ok flashcards =>
          match llm (schedule_prompt notes hours) with
          | .error e => (.error e, 4)
          | .ok schedule => (.ok (.output summary quiz flashcards schedule), 4)

/-! ## Helper lemmas for the UI pipeline -/

theorem py_strip_eq_empty_iff (s : String) :
    py_strip s = "" ↔ ∀ c ∈ s.data, c.isWhitespace := by
  unfold py_strip
  constructor
  · intro h
    have hd : ((s.data.dropWhile Char.isWhitespace).reverse.dropWhile
        Char.isWhitespace).reverse = [] := congrArg String.data h
    rw [List.reverse_eq_nil_iff, List.dropWhile_eq_nil_iff] at hd
    intro c hc
    by_cases hcp : c.isWhitespace
    · exact hcp
    · exfalso
      have hsplit : c ∈ s.data.takeWhile Char.isWhitespace ++
          s.data.dropWhile Char.isWhitespace := by
        rw [List.takeWhile_append_dropWhile]; exact hc
      rcases List.mem_append.mp hsplit with h1 | h2
      · exact hcp (List.mem_takeWhile_imp h1)
      · exact hcp (hd c (List.mem_reverse.mpr h2))
  · intro h
    have h1 : s.data.dropWhile Char.isWhitespace = [] :=
      List.dropWhile_eq_nil_iff.mpr h
    simp [h1]

theorem py_strip_ne_empty_of_exists {notes : String}
    (hex : ∃ c ∈ notes.data, ¬ c.isWhitespace) : py_strip notes ≠ "" := by
  rcases hex with ⟨c, hc, hcw⟩
  intro h
  exact hcw ((py_strip_eq_empty_iff notes).mp h c hc)

theorem extract_foldl_general (pages : List String) (acc : String) :
    pages.foldl (fun text page => text ++ page ++ "\n") acc =
      acc ++ concat_pages_spec pages := by
  induction pages generalizing acc with
  | nil => simp [concat_pages_spec]
  | cons p ps ih =>
    rw [List.foldl_cons, ih]
    simp only [concat_pages_spec, String.append_assoc]

/-! ## Claims about the UI pipeline -/

/-- C8: `extract_text_from_pdf` returns the concatenation of each page's
extracted text in page order, a newline appended after each page's text, and
returns the empty string on a zero-page document. -/
theorem extract_text_from_pdf_concat :
    (∀ pages : List String, extract_text_from_pdf pages = concat_pages_spec pages) ∧
    extract_text_from_pdf [] = "" := by
  have hmain : ∀ pages : List String,
      extract_text_from_pdf pages = concat_pages_spec pages := by
    intro pages
    unfold extract_text_from_pdf
    rw [extract_foldl_general]
    exact String.empty_append _
  exact ⟨hmain, hmain []⟩

/-- C9: `speech_to_text` never propagates a recognition failure — it returns
`""` on `UnknownValueError` and on `RequestError`, returns the recognized
text otherwise, and so its return value cannot distinguish a failure from
recognized empty speech. -/
theorem speech_to_text_swallows_errors :
    speech_to_text .unknownValue = "" ∧ speech_to_text .requestError = "" ∧
    (∀ t, speech_to_text (.recognized t) = t) ∧
    speech_to_text (.recognized "") = speech_to_text .unknownValue ∧
    speech_to_text (.recognized "") = speech_to_text .requestError :=
  ⟨rfl, rfl, fun _ => rfl, rfl, rfl⟩

/-- Witness for C8 at a concrete two-page document. -/
theorem extract_text_from_pdf_concat_witness :
    extract_text_from_pdf ["page one", "page two"] =
      concat_pages_spec ["page one", "page two"] :=
  extract_text_from_pdf_concat.1 ["page one", "page two"]

/-- Witness for C9 at a concrete recognized text. -/
theorem speech_to_text_swallows_errors_witness :
    speech_to_text (.recognized "hello") = "hello" :=
  speech_to_text_swallows_errors.2.2.1 "hello"

/-- C7: when any of the four model invocations of the "Generate Study Help"
handler fails with a transport or quota error, the handler returns exactly
that error, uncaught — and it returns an error only in that case. -/
theorem llm_error_propagates (llm : String → Except LLMError String)
    (notes : String) (hours : Nat) (e : LLMError) (hnb : py_strip notes ≠ "") :
    (generate_study_help llm notes hours).1 = .error e ↔
      llm (summary_prompt notes) = .error e ∨
      (∃ s, llm (summary_prompt notes) = .ok s ∧ llm (quiz_prompt notes) = .error e) ∨
      (∃ s q, llm (summary_prompt notes) = .ok s ∧ llm (quiz_prompt notes) = .ok q ∧
        llm (flash_prompt notes) = .error e) ∨
      (∃ s q f, llm (summary_prompt notes) = .ok s ∧ llm (quiz_prompt notes) = .ok q ∧
        llm (flash_prompt notes) = .ok f ∧ llm (schedule_prompt notes hours) = .error e) := by
  unfold generate_study_help
  rw [if_neg hnb]
  cases h1 : llm (summary_prompt notes) with
  | error e1 => simp [h1]
  | ok s1 =>
    cases h2 : llm (quiz_prompt notes) with
    | error e2 => simp [h1, h2]
    | ok s2 =>
      cases h3 : llm (flash_prompt notes) with
      | error e3 => simp [h1, h2, h3]
      | ok s3 =>
        cases h4 : llm (schedule_prompt notes hours) with
        | error e4 => simp [h1, h2, h3, h4]
        | ok s4 => simp [h1, h2, h3, h4]

/-- Witness for C7: a constantly failing model makes the handler return that
same quota error. -/
theorem llm_error_propagates_witness :
    (generate_study_help (fun _ => .error .quota) "abc" 2).1 =
      Except.error LLMError.quota :=
  (llm_error_propagates (fun _ => .error .quota) "abc" 2 .quota (by decide)).mpr
    (Or.inl rfl)

/-- C10: on notes that are empty or all whitespace the handler performs zero
model invocations and produces only a warning; model invocations happen only
when a non-whitespace character is present, in which case at least one call
occurs, and all four occur when every call succeeds. -/
theorem blank_notes_no_llm_calls :
    (∀ (llm : String → Except LLMError String) (notes : String) (hours : Nat),
       (∀ c ∈ notes.data, c.isWhitespace) →
       generate_study_help llm notes hours = (.ok .warning, 0)) ∧
    (∀ (llm : String → Except LLMError String) (notes : String) (hours : Nat),
       0 < (generate_study_help llm notes hours).2 → ∃ c ∈ notes.data, ¬ c.isWhitespace) ∧
    (∀ (llm : String → Except LLMError String) (notes : String) (hours : Nat),
       (∃ c ∈ notes.data, ¬ c.isWhitespace) →
       1 ≤ (generate_study_help llm notes hours).2) ∧
    (∀ (llm : String → Except LLMError String) (notes : String) (hours : Nat),
       (∃ c ∈ notes.data, ¬ c.isWhitespace) → (∀ p, ∃ r, llm p = .ok r) →
       (generate_study_help llm notes hours).2 = 4) := by
  refine ⟨?_, ?_, ?_, ?_⟩
  · intro llm notes hours h
    unfold generate_study_help
    rw [if_pos ((py_strip_eq_empty_iff notes).mpr h)]
  · intro llm notes hours hpos
    by_contra hex
    have hall : ∀ c ∈ notes.data, c.isWhitespace := by
      intro c hc
      by_contra hcw
      exact hex ⟨c, hc, hcw⟩
    unfold generate_study_help at hpos
    rw [if_pos ((py_strip_eq_empty_iff notes).mpr hall)] at hpos
    simp at hpos
  · intro llm notes hours hex
    unfold generate_study_help
    rw [if_neg (py_strip_ne_empty_of_exists hex)]
    cases llm (summary_prompt notes) with
    | error e => exact Nat.le_refl 1
    | ok s1 =>
      cases llm (quiz_prompt notes) with
      | error e => exact (by decide : (1 : Nat) ≤ 2)
      | ok s2 =>
        cases llm (flash_prompt notes) with
        | error e => exact (by decide : (1 : Nat) ≤ 3)
        | ok s3 =>
          cases llm (schedule_prompt notes hours) with
          | error e => exact (by decide : (1 : Nat) ≤ 4)
          | ok s4 => exact (by decide : (1 : Nat) ≤ 4)
  · intro llm notes hours hex hok
    unfold generate_study_help
    rw [if_neg (py_strip_ne_empty_of_exists hex)]
    obtain ⟨r1, h1⟩ := hok (summary_prompt notes)
    obtain ⟨r2, h2⟩ := hok (quiz_prompt notes)
    obtain ⟨r3, h3⟩ := hok (flash_prompt notes)
    obtain ⟨r4, h4⟩ := hok (schedule_prompt notes hours)
    rw [h1, h2, h3, h4]

/-- Witness for C10: blank notes yield a warning and zero calls; non-blank
notes yield at least one call. -/
theorem blank_notes_no_llm_calls_witness :
    generate_study_help (fun _ => .ok "done") "   " 3 = (.ok .warning, 0) ∧
    1 ≤ (generate_study_help (fun _ => .ok "done") "abc" 3).2 :=
  ⟨blank_notes_no_llm_calls.1 (fun _ => .ok "done") "   " 3 (by decide),
   blank_notes_no_llm_calls.2.2.1 (fun _ => .ok "done") "abc" 3
     ⟨'a', by decide, by decide⟩⟩

end StudyAssistant
